import Mathlib

/-!
Verification of the archinstall guided installation pipeline.

This file embeds, as executable Lean definitions, the control flow of
`archinstall/scripts/guided.py` (the module-level script body and
`perform_installation`) together with the hardware detectors of
`archinstall/lib/hardware.py`, and proves properties of the step ordering,
step gating and failure behaviour.

The pipeline is modelled as a function from an `Arguments` record (the
`archinstall.arguments` dictionary, with Python truthiness made explicit)
and a `Hardware` record (the live machine facts consulted by the script)
to a trace of named steps plus a process exit code.
-/

namespace ArchInstall

/-- `disk.DiskLayoutType`: layout mode of the disk configuration. -/
inductive DiskLayoutType
  | Default
  | Manual
  | Pre_mount
deriving DecidableEq, Repr

/-- `disk.EncryptionType`: disk encryption scheme selector. -/
inductive EncryptionType
  | NoEncryption
  | Luks
deriving DecidableEq, Repr

/-- `models.bootloader.Bootloader` enum. -/
inductive Bootloader
  | Systemd
  | Grub
  | Efistub
deriving DecidableEq, Repr

/-- The `archinstall.arguments` dictionary as consulted by `guided.py`.
Optional dictionary entries are `Option`-valued; Python truthiness of each
entry is recovered by explicit helper functions below. -/
structure Arguments where
  help : Bool
  silent : Bool
  dry_run : Bool
  skip_mirror_check : Bool
  disk_config_type : DiskLayoutType
  disk_encryption : Option EncryptionType
  mirror_region : Option String
  mirrors : Option String
  swap : Bool
  bootloader : Bootloader
  nic : Option Unit
  packages : Option (List String)
  users : Option (List String)
  audio : Option String
  profile_config : Option Unit
  timezone : Option String
  ntp : Bool
  root_password : Option String
  keyboard_layout : String
  services : Option (List String)
  custom_commands : Option (List String)
deriving Repr

/-- Live machine facts consulted by the script: `SysInfo.has_uefi()`,
`check_mirror_reachable()` and `accessibility_tools_in_use()`. -/
structure Hardware where
  has_uefi : Bool
  mirror_reachable : Bool
  accessibility_tools : Bool
deriving Repr

/-- Python truthiness of an optional string dictionary entry:
truthy iff present and non-empty. -/
def truthyStr : Option String → Bool
  | none => false
  | some s => !(s == "")

/-- Python truthiness of an optional list dictionary entry:
truthy iff present and non-empty. -/
def truthyList : Option (List String) → Bool
  | none => false
  | some l => !l.isEmpty

/-- `disk_encryption and disk_encryption.encryption_type != disk.EncryptionType.NoEncryption`. -/
def encActive : Option EncryptionType → Bool
  | none => false
  | some t => !(t == EncryptionType.NoEncryption)

/-- `arguments.get('packages', None) and arguments.get('packages', None)[0] != ''`:
the short-circuiting `and` means the index access only happens on a
non-empty list. -/
def packagesCond : Option (List String) → Bool
  | none => false
  | some [] => false
  | some (p :: _) => !(p == "")

/-- `(root_pw := arguments.get('!root-password', None)) and len(root_pw)`. -/
def rootPwCond : Option String → Bool
  | none => false
  | some s => !(s == "")

/-- Named steps of the pipeline, one per observable action in
`guided.py` (both the module-level body and `perform_installation`). -/
inductive Step
  | printHelp
  | mirrorCheckFailLog
  | askQuestions
  | showConfig
  | saveConfig
  | pressEnter
  | filesystemOps
  | mountLayout
  | sanityCheck
  | genKeyFiles
  | useMirrorsLive
  | minimalInstall
  | setMirrorsTarget
  | setupSwap
  | addGrubPackage
  | addBootloader
  | networkConfig
  | addPackages
  | createUsers
  | logInstallingAudio (server : String)
  | installPipewire
  | installPulseaudio
  | logNoAudio
  | installProfile
  | setTimezone
  | activateNtp
  | enableEspeakup
  | setRootPw
  | setKeyboardLanguage
  | profilePostInstall
  | enableServices
  | customCommands
  | genfstab
  | chrootPrompt
deriving DecidableEq, Repr

/-- A conditionally executed trace segment: the steps `l` when the guard
`b` holds, nothing otherwise. -/
def gate (b : Bool) (l : List Step) : List Step :=
  if b then l else []

@[simp]
theorem mem_gate {x : Step} {b : Bool} {l : List Step} :
    x ∈ gate b l ↔ b = true ∧ x ∈ l := by
  cases b <;> simp [gate]

/-- The audio branch of `perform_installation` (`if audio := arguments.get('audio', None)`):
a truthy audio value logs the chosen server and installs pipewire or
pulseaudio when it names one of them; a falsy value logs that no audio
server will be installed. -/
def audioSteps : Option String → List Step
  | none => [Step.logNoAudio]
  | some s =>
    if s == "" then
      [Step.logNoAudio]
    else
      Step.logInstallingAudio s ::
        (if s == "pipewire" then [Step.installPipewire]
         else if s == "pulseaudio" then [Step.installPulseaudio]
         else [])

/-- Trace of `perform_installation(mountpoint)` in `guided.py`
(lines 105-232): a straight-line sequence of gated steps. -/
def performInstallation (a : Arguments) (hw : Hardware) : List Step :=
  gate (!(a.disk_config_type == DiskLayoutType.Pre_mount)) [Step.mountLayout] ++
  [Step.sanityCheck] ++
  gate (!(a.disk_config_type == DiskLayoutType.Pre_mount) && encActive a.disk_encryption)
    [Step.genKeyFiles] ++
  gate (truthyStr a.mirror_region) [Step.useMirrorsLive] ++
  [Step.minimalInstall] ++
  gate (a.mirror_region.isSome && a.mirrors.isSome) [Step.setMirrorsTarget] ++
  gate a.swap [Step.setupSwap] ++
  gate ((a.bootloader == Bootloader.Grub) && hw.has_uefi) [Step.addGrubPackage] ++
  [Step.addBootloader] ++
  gate a.nic.isSome [Step.networkConfig] ++
  gate (packagesCond a.packages) [Step.addPackages] ++
  gate (truthyList a.users) [Step.createUsers] ++
  audioSteps a.audio ++
  gate a.profile_config.isSome [Step.installProfile] ++
  gate (truthyStr a.timezone) [Step.setTimezone] ++
  gate a.ntp [Step.activateNtp] ++
  gate hw.accessibility_tools [Step.enableEspeakup] ++
  gate (rootPwCond a.root_password) [Step.setRootPw] ++
  [Step.setKeyboardLanguage] ++
  gate a.profile_config.isSome [Step.profilePostInstall] ++
  gate (truthyList a.services) [Step.enableServices] ++
  gate (truthyList a.custom_commands) [Step.customCommands] ++
  [Step.genfstab] ++
  gate (!a.silent) [Step.chrootPrompt]

/-- Modelled from the spec: `disk.FilesystemHandler.perform_filesystem_operations`
is not part of the shown source (only its call site in `guided.py` is);
the spec states that filesystem operations (partition/format) run unless
the `disk_config` mode is pre-mounted. -/
def performFilesystemOperations (cfgType : DiskLayoutType) : List Step :=
  if cfgType == DiskLayoutType.Pre_mount then [] else [Step.filesystemOps]

/-- Trace and exit code of the module-level body of `guided.py`:
help gate (exit 0), mirror reachability pre-flight (exit 1 on failure),
question gathering, configuration show/save, dry-run gate (exit 0),
filesystem operations and `perform_installation` (exit 0 at end). -/
def guided (a : Arguments) (hw : Hardware) : List Step × Nat :=
  if a.help then
    ([Step.printHelp], 0)
  else if !a.skip_mirror_check && !hw.mirror_reachable then
    ([Step.mirrorCheckFailLog], 1)
  else
    let base := gate (!a.silent) [Step.askQuestions] ++
      gate (!a.silent) [Step.showConfig] ++ [Step.saveConfig]
    if a.dry_run then
      (base, 0)
    else
      (base ++ gate (!a.silent) [Step.pressEnter] ++
        performFilesystemOperations a.disk_config_type ++
        performInstallation a hw, 0)

/-- The filesystem-mutating steps named by the dry-run invariant:
filesystem operations, mounting, key-file generation, base install,
swap setup, bootloader/package installs and fstab generation. -/
def mutatingStep : Step → Bool
  | Step.filesystemOps => true
  | Step.mountLayout => true
  | Step.genKeyFiles => true
  | Step.minimalInstall => true
  | Step.setupSwap => true
  | Step.addGrubPackage => true
  | Step.addBootloader => true
  | Step.addPackages => true
  | Step.genfstab => true
  | _ => false

/-! ## Hardware detectors (`archinstall/lib/hardware.py`)

The detectors read pseudo-files and run a detection utility. The ambient
machine state is a `SysFiles` record: each pseudo-file is `none` when
missing/unreadable and `some contents` otherwise. Python exceptions are
modelled as `Except PyErr`. -/

/-- Python exceptions raised by the detector code paths. -/
inductive PyErr
  | fileNotFound
  | valueError
  | indexError
  | keyError
deriving DecidableEq, Repr

/-- The machine state read by the detectors: the cpu-info and mem-info
pseudo-files (as lists of lines) and the two DMI identity files. -/
structure SysFiles where
  proc_cpuinfo : Option (List String)
  proc_meminfo : Option (List String)
  dmi_sys_vendor : Option String
  dmi_product_name : Option String
deriving Repr

/-- The characters Python `str.strip()` and `str.split()` treat as
whitespace. -/
def pyIsSpace (c : Char) : Bool :=
  c == ' ' || c == '\t' || c == '\n' || c == '\r' || c == '\x0b' || c == '\x0c'

/-- Remove characters matching `p` from both ends of a character list. -/
def stripList (p : Char → Bool) (l : List Char) : List Char :=
  ((l.dropWhile p).reverse.dropWhile p).reverse

/-- Python `s.strip()`. -/
def pyStrip (s : String) : String :=
  String.mk (stripList pyIsSpace s.data)

/-- Python `s.split(':', maxsplit=1)` on a character list: `none` when no
colon occurs, otherwise the text before the first colon and everything
after it. -/
def breakOnColon : List Char → Option (List Char × List Char)
  | [] => none
  | c :: cs =>
    if c == ':' then
      some ([], cs)
    else
      (breakOnColon cs).map (fun p => (c :: p.1, p.2))

/-- Split a character list at every character matching `p`, keeping empty
pieces (Python `s.split(sep)` semantics for a one-character separator
when `p` matches exactly that character). -/
def splitBy (p : Char → Bool) : List Char → List (List Char)
  | [] => [[]]
  | c :: cs =>
    let r := splitBy p cs
    if p c then
      [] :: r
    else
      match r with
      | [] => [[c]]
      | piece :: rest => (c :: piece) :: rest

/-- Python `int(s)` for the strings produced here: an optional sign
followed by at least one decimal digit. -/
def pyInt (l : List Char) : Option Int :=
  let digits : List Char → Option Nat := fun ds =>
    if ds.isEmpty ∨ ¬ds.all Char.isDigit then
      none
    else
      some (ds.foldl (fun acc c => acc * 10 + (c.toNat - '0'.toNat)) 0)
  match l with
  | '-' :: rest => (digits rest).map (fun n => -(n : Int))
  | '+' :: rest => (digits rest).map (fun n => (n : Int))
  | _ => (digits l).map (fun n => (n : Int))

/-- Lookup in a Python dict represented as an insertion-ordered
association list: the last binding of a key wins. -/
def dget {α : Type} (d : List (String × α)) (k : String) : Option α :=
  (d.reverse.find? (fun p => p.1 == k)).map (·.2)

/-- The loop body of `_SysInfo.cpu_info`: strip each line, skip falsy
(empty) lines, split on the first colon — a line with no colon raises
`ValueError` from tuple unpacking — and record the stripped key/value. -/
def parseCpuLines : List String → Except PyErr (List (String × String))
  | [] => Except.ok []
  | line :: rest =>
    let l := stripList pyIsSpace line.data
    if l.isEmpty then
      parseCpuLines rest
    else
      match breakOnColon l with
      | none => Except.error PyErr.valueError
      | some (k, v) =>
        (parseCpuLines rest).map
          (fun d =>
            (String.mk (stripList pyIsSpace k),
             String.mk (stripList pyIsSpace v)) :: d)

/-- `_SysInfo.cpu_info`: opens `/proc/cpuinfo` (raising when the file is
missing) and parses it into a dict. -/
def cpu_info (fs : SysFiles) : Except PyErr (List (String × String)) :=
  match fs.proc_cpuinfo with
  | none => Except.error PyErr.fileNotFound
  | some lines => parseCpuLines lines

/-- Python `value.split()`: split on whitespace runs, discarding empty
pieces. -/
def pySplitWs (l : List Char) : List (List Char) :=
  (splitBy pyIsSpace l).filter (fun t => !t.isEmpty)

/-- The loop body of `_SysInfo.mem_info`: strip each line and split on all
colons — anything but exactly two pieces raises `ValueError` from tuple
unpacking — then take the first whitespace token of the value (raising
`IndexError` when there is none) and convert it to an integer (raising
`ValueError` when it is not one). -/
def parseMemLines : List String → Except PyErr (List (String × Int))
  | [] => Except.ok []
  | line :: rest =>
    match splitBy (fun c => c == ':') (stripList pyIsSpace line.data) with
    | [k, v] =>
      match pySplitWs v with
      | [] => Except.error PyErr.indexError
      | num :: _ =>
        match pyInt num with
        | none => Except.error PyErr.valueError
        | some n => (parseMemLines rest).map (fun d => (String.mk k, n) :: d)
    | _ => Except.error PyErr.valueError

/-- `_SysInfo.mem_info`: opens `/proc/meminfo` (raising when the file is
missing) and parses it into a dict. -/
def mem_info (fs : SysFiles) : Except PyErr (List (String × Int)) :=
  match fs.proc_meminfo with
  | none => Except.error PyErr.fileNotFound
  | some lines => parseMemLines lines

/-- `_SysInfo.mem_info_by_key`: subscript access `self.mem_info[key]`,
raising `KeyError` when the key is absent. -/
def mem_info_by_key (fs : SysFiles) (key : String) : Except PyErr Int :=
  match mem_info fs with
  | Except.error e => Except.error e
  | Except.ok d =>
    match dget d key with
    | none => Except.error PyErr.keyError
    | some v => Except.ok v

/-- `SysInfo.cpu_vendor`: `cpu_info.get('vendor_id', None)`. -/
def cpu_vendor (fs : SysFiles) : Except PyErr (Option String) :=
  (cpu_info fs).map (fun d => dget d "vendor_id")

/-- `SysInfo.cpu_model`: `cpu_info.get('model name', None)`. -/
def cpu_model (fs : SysFiles) : Except PyErr (Option String) :=
  (cpu_info fs).map (fun d => dget d "model name")

/-- `SysInfo.sys_vendor`: opens the DMI sys_vendor file (raising when it
is missing) and returns its stripped contents. -/
def sys_vendor (fs : SysFiles) : Except PyErr String :=
  match fs.dmi_sys_vendor with
  | none => Except.error PyErr.fileNotFound
  | some contents => Except.ok (pyStrip contents)

/-- `SysInfo.product_name`: opens the DMI product_name file (raising when
it is missing) and returns its stripped contents. -/
def product_name (fs : SysFiles) : Except PyErr String :=
  match fs.dmi_product_name with
  | none => Except.error PyErr.fileNotFound
  | some contents => Except.ok (pyStrip contents)

/-- `SysInfo.mem_available`. -/
def mem_available (fs : SysFiles) : Except PyErr Int :=
  mem_info_by_key fs "MemAvailable"

/-- `SysInfo.mem_free`. -/
def mem_free (fs : SysFiles) : Except PyErr Int :=
  mem_info_by_key fs "MemFree"

/-- `SysInfo.mem_total`. -/
def mem_total (fs : SysFiles) : Except PyErr Int :=
  mem_info_by_key fs "MemTotal"

/-- Outcome of `SysInfo.virtualization`: the returned value and whether
the debug log line about a failed detection was emitted. -/
structure VirtResult where
  result : Option String
  logged : Bool
deriving DecidableEq, Repr

/-- `SysInfo.virtualization`: runs `systemd-detect-virt` (its outcome is
`none` when the command raises `SysCallError`, `some output` otherwise);
on success returns the output stripped of CR/LF, on failure logs a debug
message and returns `None`. The surrounding try/except means the caller
never sees an exception. -/
def virtualization (cmd : Option String) : Except PyErr VirtResult :=
  match cmd with
  | some out =>
    Except.ok ⟨some (String.mk (stripList (fun c => c == '\x0d' || c == '\n') out.data)), false⟩
  | none => Except.ok ⟨none, true⟩

/-- No step of the trace is filesystem-mutating. -/
def noMutating (l : List Step) : Bool :=
  l.all (fun s => !mutatingStep s)

/-! ## Concrete inputs used by the witnesses and counterexamples -/

/-- A baseline concrete installation plan. -/
def argsBase : Arguments where
  help := false
  silent := true
  dry_run := false
  skip_mirror_check := true
  disk_config_type := DiskLayoutType.Default
  disk_encryption := some EncryptionType.Luks
  mirror_region := some "Sweden"
  mirrors := none
  swap := true
  bootloader := Bootloader.Grub
  nic := none
  packages := some ["vim"]
  users := some ["alice"]
  audio := some "pipewire"
  profile_config := some ()
  timezone := some "UTC"
  ntp := true
  root_password := some "secret"
  keyboard_layout := "us"
  services := none
  custom_commands := none

/-- Baseline hardware: UEFI firmware, reachable mirrors. -/
def hwBase : Hardware where
  has_uefi := true
  mirror_reachable := true
  accessibility_tools := false

/-- Hardware with unreachable mirrors. -/
def hwUnreachable : Hardware where
  has_uefi := true
  mirror_reachable := false
  accessibility_tools := false

/-- The baseline plan with `dry_run` set. -/
def argsDry : Arguments := { argsBase with dry_run := true }

/-- The baseline plan with the mirror check enabled. -/
def argsMirror : Arguments := { argsBase with skip_mirror_check := false }

/-- The baseline plan with a pre-mounted disk configuration. -/
def argsPremount : Arguments :=
  { argsBase with disk_config_type := DiskLayoutType.Pre_mount }

/-- A machine with every detector source file missing. -/
def fsMissing : SysFiles where
  proc_cpuinfo := none
  proc_meminfo := none
  dmi_sys_vendor := none
  dmi_product_name := none

/-- A machine whose cpu-info and mem-info files each contain one
well-formed line followed by one malformed (colon-free) line. -/
def fsMalformed : SysFiles where
  proc_cpuinfo := some ["model name : Foo CPU", "garbage line"]
  proc_meminfo := some ["MemTotal: 100 kB", "garbage line"]
  dmi_sys_vendor := none
  dmi_product_name := none

/-- A machine with well-formed cpu-info and mem-info files. -/
def fsWellFormed : SysFiles where
  proc_cpuinfo := some ["vendor_id\t: GenuineIntel", "model name : Foo CPU"]
  proc_meminfo := some ["MemTotal:  100 kB", "MemFree: 50 kB"]
  dmi_sys_vendor := some "QEMU\n"
  dmi_product_name := some "Standard PC\n"

/-- The dict that parsing `fsWellFormed`'s mem-info file produces. -/
def memDictWellFormed : List (String × Int) :=
  [("MemTotal", 100), ("MemFree", 50)]

/-- The baseline plan with a non-empty package list whose first element
is the empty string. -/
def argsPkgEmptyHead : Arguments := { argsBase with packages := some [""] }

/-- The baseline plan with the audio entry present but equal to the
empty string. -/
def argsAudioEmpty : Arguments := { argsBase with audio := some "" }

/-- The baseline plan with the audio entry set to the string value
`none`. -/
def argsAudioNone : Arguments := { argsBase with audio := some "none" }

/-! ## Helper lemmas -/

@[simp]
theorem gate_true (l : List Step) : gate true l = l := rfl

@[simp]
theorem gate_false (l : List Step) : gate false l = [] := rfl

theorem mem_audioSteps (x : Step) (o : Option String) :
    x ∈ audioSteps o ↔
      ((o = none ∨ o = some "") ∧ x = Step.logNoAudio) ∨
      (∃ s, o = some s ∧ ¬s = "" ∧
        (x = Step.logInstallingAudio s ∨
         (s = "pipewire" ∧ x = Step.installPipewire) ∨
         (¬s = "pipewire" ∧ s = "pulseaudio" ∧ x = Step.installPulseaudio))) := by
  cases o with
  | none => simp [audioSteps]
  | some s =>
    by_cases h0 : s = ""
    · subst h0
      simp [audioSteps]
    · by_cases h1 : s = "pipewire"
      · subst h1
        simp [audioSteps]
      · by_cases h2 : s = "pulseaudio"
        · subst h2
          simp [audioSteps]
        · simp [audioSteps, h0, h1, h2]

@[simp]
theorem mem_performFilesystemOperations (x : Step) (t : DiskLayoutType) :
    x ∈ performFilesystemOperations t ↔
      ¬t = DiskLayoutType.Pre_mount ∧ x = Step.filesystemOps := by
  cases t <;> simp [performFilesystemOperations]

theorem packagesCond_eq_true (o : Option (List String)) :
    packagesCond o = true ↔ ∃ p ps, o = some (p :: ps) ∧ ¬p = "" := by
  cases o with
  | none => simp [packagesCond]
  | some l => cases l <;> simp [packagesCond]

/-! ## Claims -/

/-- C1: for every run with `dry_run` set that reaches the dry-run gate
(help not requested, mirror pre-flight passed or skipped), the process
exits with code 0, the last executed step is the configuration save, and
no filesystem-mutating step appears in the trace. -/
theorem dry_run_exits_zero_after_save (a : Arguments) (hw : Hardware)
    (hdry : a.dry_run = true) :
    noMutating (guided a hw).1 = true ∧
    (a.help = false →
      (a.skip_mirror_check = true ∨ hw.mirror_reachable = true) →
      (guided a hw).2 = 0 ∧
      (guided a hw).1.getLast? = some Step.saveConfig) := by
  constructor
  · cases hh : a.help <;>
      cases hm : (!a.skip_mirror_check && !hw.mirror_reachable) <;>
        cases hs : a.silent <;>
          simp [guided, hh, hm, hs, hdry, noMutating, mutatingStep, gate]
  · intro hhelp hmir
    have hm : (!a.skip_mirror_check && !hw.mirror_reachable) = false := by
      rcases hmir with h | h <;> simp [h]
    cases hs : a.silent <;>
      simp [guided, hhelp, hm, hdry, hs, gate]

/-- Witness for C1 at a concrete plan. -/
theorem dry_run_exits_zero_after_save_witness :
    noMutating (guided argsDry hwBase).1 = true ∧
    (guided argsDry hwBase).2 = 0 ∧
    (guided argsDry hwBase).1.getLast? = some Step.saveConfig :=
  ⟨(dry_run_exits_zero_after_save argsDry hwBase rfl).1,
   (dry_run_exits_zero_after_save argsDry hwBase rfl).2 rfl (Or.inl rfl)⟩

/-- C2: the grub prerequisite package is installed iff the chosen
bootloader is GRUB and the machine booted in UEFI mode. -/
theorem grub_package_iff_grub_and_uefi (a : Arguments) (hw : Hardware) :
    Step.addGrubPackage ∈ performInstallation a hw ↔
      a.bootloader = Bootloader.Grub ∧ hw.has_uefi = true := by
  simp [performInstallation, mem_audioSteps]

/-- C4: when the mirror check is not skipped and fails (and help was not
requested), the process exits with code 1 having executed only the
failure log line: no question gathering, no plan persistence, no
installation step. -/
theorem mirror_fail_exits_one (a : Arguments) (hw : Hardware)
    (hhelp : a.help = false) (hskip : a.skip_mirror_check = false)
    (hreach : hw.mirror_reachable = false) :
    (guided a hw).2 = 1 ∧
    (guided a hw).1 = [Step.mirrorCheckFailLog] ∧
    Step.askQuestions ∉ (guided a hw).1 ∧
    Step.saveConfig ∉ (guided a hw).1 := by
  simp [guided, hhelp, hskip, hreach]

/-- Witness for C4 at a concrete plan and unreachable mirrors. -/
theorem mirror_fail_exits_one_witness :
    (guided argsMirror hwUnreachable).2 = 1 ∧
    (guided argsMirror hwUnreachable).1 = [Step.mirrorCheckFailLog] ∧
    Step.askQuestions ∉ (guided argsMirror hwUnreachable).1 ∧
    Step.saveConfig ∉ (guided argsMirror hwUnreachable).1 :=
  mirror_fail_exits_one argsMirror hwUnreachable rfl rfl rfl

/-- C5: a pre-mounted disk configuration never performs the
partition/format step nor the mount-target-layout step, on any path. -/
theorem premount_never_runs_fsops_or_mount (a : Arguments) (hw : Hardware)
    (h : a.disk_config_type = DiskLayoutType.Pre_mount) :
    Step.filesystemOps ∉ (guided a hw).1 ∧
    Step.mountLayout ∉ (guided a hw).1 := by
  cases hh : a.help <;>
    cases hm : (!a.skip_mirror_check && !hw.mirror_reachable) <;>
      cases hd : a.dry_run <;>
        simp [guided, hh, hm, hd, performInstallation, h, mem_audioSteps]

/-- C3: on every execution path that reaches the keyboard/console language
step, if a profile config is present then the trace decomposes as a
prefix without the keyboard step, the profile installation step, and a
suffix containing the keyboard step: the keyboard step runs strictly
after the profile installation. -/
theorem keyboard_after_profile_install (a : Arguments) (hw : Hardware)
    (hp : a.profile_config.isSome = true)
    (hk : Step.setKeyboardLanguage ∈ (guided a hw).1) :
    ∃ l1 l2, (guided a hw).1 = l1 ++ Step.installProfile :: l2 ∧
      Step.setKeyboardLanguage ∈ l2 ∧
      Step.setKeyboardLanguage ∉ l1 := by
  cases hh : a.help with
  | true => simp [guided, hh] at hk
  | false =>
  cases hm : (!a.skip_mirror_check && !hw.mirror_reachable) with
  | true => simp [guided, hh, hm] at hk
  | false =>
  cases hd : a.dry_run with
  | true => simp [guided, hh, hm, hd, gate] at hk
  | false =>
  refine ⟨gate (!a.silent) [Step.askQuestions] ++ gate (!a.silent) [Step.showConfig] ++
    [Step.saveConfig] ++ gate (!a.silent) [Step.pressEnter] ++
    performFilesystemOperations a.disk_config_type ++
    gate (!(a.disk_config_type == DiskLayoutType.Pre_mount)) [Step.mountLayout] ++
    [Step.sanityCheck] ++
    gate (!(a.disk_config_type == DiskLayoutType.Pre_mount) && encActive a.disk_encryption)
      [Step.genKeyFiles] ++
    gate (truthyStr a.mirror_region) [Step.useMirrorsLive] ++
    [Step.minimalInstall] ++
    gate (a.mirror_region.isSome && a.mirrors.isSome) [Step.setMirrorsTarget] ++
    gate a.swap [Step.setupSwap] ++
    gate ((a.bootloader == Bootloader.Grub) && hw.has_uefi) [Step.addGrubPackage] ++
    [Step.addBootloader] ++
    gate a.nic.isSome [Step.networkConfig] ++
    gate (packagesCond a.packages) [Step.addPackages] ++
    gate (truthyList a.users) [Step.createUsers] ++
    audioSteps a.audio,
    gate (truthyStr a.timezone) [Step.setTimezone] ++
    gate a.ntp [Step.activateNtp] ++
    gate hw.accessibility_tools [Step.enableEspeakup] ++
    gate (rootPwCond a.root_password) [Step.setRootPw] ++
    [Step.setKeyboardLanguage] ++
    gate a.profile_config.isSome [Step.profilePostInstall] ++
    gate (truthyList a.services) [Step.enableServices] ++
    gate (truthyList a.custom_commands) [Step.customCommands] ++
    [Step.genfstab] ++
    gate (!a.silent) [Step.chrootPrompt], ?_, ?_, ?_⟩
  · simp [guided, hh, hm, hd, performInstallation, hp]
  · simp
  · simp [mem_audioSteps]

/-- Witness for C3 at a concrete plan with a profile config. -/
theorem keyboard_after_profile_install_witness :
    ∃ l1 l2, (guided argsBase hwBase).1 = l1 ++ Step.installProfile :: l2 ∧
      Step.setKeyboardLanguage ∈ l2 ∧
      Step.setKeyboardLanguage ∉ l1 :=
  keyboard_after_profile_install argsBase hwBase rfl (by decide)

/-- Witness for C5 at a concrete pre-mounted plan. -/
theorem premount_never_runs_fsops_or_mount_witness :
    Step.filesystemOps ∉ (guided argsPremount hwBase).1 ∧
    Step.mountLayout ∉ (guided argsPremount hwBase).1 :=
  premount_never_runs_fsops_or_mount argsPremount hwBase rfl

/-- C6 counterexample: with every pseudo-file absent, cpu_vendor,
cpu_model, sys_vendor, product_name and the three memory queries all
raise (propagate a file-not-found error) instead of returning a
conservative value. -/
theorem detectors_raise_on_missing_files :
    cpu_vendor fsMissing = Except.error PyErr.fileNotFound ∧
    cpu_model fsMissing = Except.error PyErr.fileNotFound ∧
    sys_vendor fsMissing = Except.error PyErr.fileNotFound ∧
    product_name fsMissing = Except.error PyErr.fileNotFound ∧
    mem_total fsMissing = Except.error PyErr.fileNotFound ∧
    mem_free fsMissing = Except.error PyErr.fileNotFound ∧
    mem_available fsMissing = Except.error PyErr.fileNotFound := by
  refine ⟨rfl, rfl, rfl, rfl, rfl, rfl, rfl⟩

/-- C6 (amended): the file-backed detectors (cpu_vendor, cpu_model,
sys_vendor, product_name and the memory queries) do not degrade to a
conservative value: each propagates a file-not-found error whenever its
pseudo-file is absent. -/
theorem detectors_propagate_missing_file (fs : SysFiles)
    (h1 : fs.proc_cpuinfo = none) (h2 : fs.proc_meminfo = none)
    (h3 : fs.dmi_sys_vendor = none) (h4 : fs.dmi_product_name = none) :
    cpu_vendor fs = Except.error PyErr.fileNotFound ∧
    cpu_model fs = Except.error PyErr.fileNotFound ∧
    sys_vendor fs = Except.error PyErr.fileNotFound ∧
    product_name fs = Except.error PyErr.fileNotFound ∧
    mem_total fs = Except.error PyErr.fileNotFound ∧
    mem_free fs = Except.error PyErr.fileNotFound ∧
    mem_available fs = Except.error PyErr.fileNotFound := by
  refine ⟨?_, ?_, ?_, ?_, ?_, ?_, ?_⟩
  all_goals
    simp [cpu_vendor, cpu_model, cpu_info, sys_vendor, product_name,
      mem_total, mem_free, mem_available, mem_info_by_key, mem_info,
      Except.map, h1, h2, h3, h4]

/-- Witness for the amended C6 at the all-missing machine. -/
theorem detectors_propagate_missing_file_witness :
    cpu_vendor fsMissing = Except.error PyErr.fileNotFound ∧
    cpu_model fsMissing = Except.error PyErr.fileNotFound ∧
    sys_vendor fsMissing = Except.error PyErr.fileNotFound ∧
    product_name fsMissing = Except.error PyErr.fileNotFound ∧
    mem_total fsMissing = Except.error PyErr.fileNotFound ∧
    mem_free fsMissing = Except.error PyErr.fileNotFound ∧
    mem_available fsMissing = Except.error PyErr.fileNotFound :=
  detectors_propagate_missing_file fsMissing rfl rfl rfl rfl

/-- C7 counterexample: when the detection utility fails, the
virtualization detector returns `None` (after logging), not the string
`unknown`. -/
theorem virtualization_failure_not_unknown :
    virtualization none = Except.ok ⟨none, true⟩ ∧
    ¬virtualization none = Except.ok ⟨some "unknown", true⟩ := by
  refine ⟨rfl, ?_⟩
  simp [virtualization]

/-- C7 (amended): the virtualization detector never raises for any
utility outcome; when the utility fails it logs the failure and returns
`None`. -/
theorem virtualization_never_raises (cmd : Option String) :
    (virtualization cmd).isOk = true ∧
    (cmd = none → virtualization cmd = Except.ok ⟨none, true⟩) := by
  cases cmd with
  | none => exact ⟨rfl, fun _ => rfl⟩
  | some s => exact ⟨rfl, fun h => nomatch h⟩

/-- Witness for the amended C7 at the failing-utility outcome. -/
theorem virtualization_never_raises_witness :
    (virtualization none).isOk = true ∧
    virtualization none = Except.ok ⟨none, true⟩ :=
  ⟨(virtualization_never_raises none).1, (virtualization_never_raises none).2 rfl⟩

/-- C8 counterexample: a malformed (colon-free) line in either
pseudo-file makes the parse itself raise, so requesting a key that is
present in the well-formed part of the file still fails: validation is
eager per file, not lazy per requested key. -/
theorem malformed_line_fails_despite_present_key :
    mem_info_by_key fsMalformed "MemTotal" = Except.error PyErr.valueError ∧
    cpu_model fsMalformed = Except.error PyErr.valueError := by
  refine ⟨rfl, rfl⟩

/-- C8 (amended): a parse failure of the mem-info file is propagated to
every key request, regardless of the requested key; when the file parses,
a request fails (with a key error) iff the requested key is absent from
the resulting mapping, and returns the mapped value otherwise. -/
theorem mem_info_fails_eagerly_then_by_key :
    (∀ fs e key, mem_info fs = Except.error e →
      mem_info_by_key fs key = Except.error e) ∧
    (∀ fs d key, mem_info fs = Except.ok d →
      (mem_info_by_key fs key = Except.error PyErr.keyError ↔ dget d key = none) ∧
      (∀ v, dget d key = some v → mem_info_by_key fs key = Except.ok v)) := by
  constructor
  · intro fs e key h
    simp [mem_info_by_key, h]
  · intro fs d key h
    constructor
    · cases hv : dget d key <;> simp [mem_info_by_key, h, hv]
    · intro v hv
      simp [mem_info_by_key, h, hv]

/-- Witness for the amended C8: the malformed file fails for a present
key, and the well-formed file fails exactly on an absent key. -/
theorem mem_info_fails_eagerly_then_by_key_witness :
    mem_info_by_key fsMalformed "MemTotal" = Except.error PyErr.valueError ∧
    (mem_info_by_key fsWellFormed "Bogus" = Except.error PyErr.keyError ↔
      dget memDictWellFormed "Bogus" = none) ∧
    mem_info_by_key fsWellFormed "MemTotal" = Except.ok 100 :=
  ⟨mem_info_fails_eagerly_then_by_key.1 fsMalformed PyErr.valueError "MemTotal" rfl,
   (mem_info_fails_eagerly_then_by_key.2 fsWellFormed memDictWellFormed "Bogus" rfl).1,
   (mem_info_fails_eagerly_then_by_key.2 fsWellFormed memDictWellFormed "MemTotal" rfl).2
     100 rfl⟩

/-- C9 counterexample: a plan whose package list is the non-empty list
`[""]` does not run the additional-package-installation step, because the
code additionally requires the first element to differ from the empty
string. -/
theorem packages_nonempty_but_step_skipped :
    argsPkgEmptyHead.packages = some [""] ∧
    ¬([""] : List String) = [] ∧
    Step.addPackages ∉ (guided argsPkgEmptyHead hwBase).1 := by
  refine ⟨rfl, ?_, ?_⟩
  · exact fun h => List.noConfusion h
  · decide

/-- C9 (amended): the additional-package-installation step runs iff the
package list is non-empty and its first element is not the empty
string. -/
theorem add_packages_iff_head_nonempty (a : Arguments) (hw : Hardware) :
    Step.addPackages ∈ performInstallation a hw ↔
      ∃ p ps, a.packages = some (p :: ps) ∧ ¬p = "" := by
  simp [performInstallation, mem_audioSteps, packagesCond_eq_true]

/-- C10 counterexample: when the audio entry is present but equal to the
empty string (so neither absent nor null), the pipeline still emits the
no-audio message: the message is governed by Python falsiness, not by
absence. -/
theorem no_audio_message_with_empty_audio :
    argsAudioEmpty.audio = some "" ∧
    ¬argsAudioEmpty.audio = none ∧
    Step.logNoAudio ∈ (guided argsAudioEmpty hwBase).1 := by
  refine ⟨rfl, ?_, ?_⟩
  · exact fun h => Option.noConfusion h
  · decide

/-- C10 (amended): the no-audio message is emitted iff the audio entry is
absent or the empty string; when the entry is the string value `none`,
the audio-chosen branch runs: it logs the chosen server `none`, installs
neither pipewire nor pulseaudio, and does not emit the no-audio
message. -/
theorem audio_none_string_takes_chosen_branch (a : Arguments) (hw : Hardware) :
    (Step.logNoAudio ∈ performInstallation a hw ↔
      (a.audio = none ∨ a.audio = some "")) ∧
    (a.audio = some "none" →
      Step.logInstallingAudio "none" ∈ performInstallation a hw ∧
      Step.installPipewire ∉ performInstallation a hw ∧
      Step.installPulseaudio ∉ performInstallation a hw ∧
      Step.logNoAudio ∉ performInstallation a hw) := by
  constructor
  · simp [performInstallation, mem_audioSteps]
  · intro h
    simp [performInstallation, mem_audioSteps, h]

/-- Witness for the amended C10 at a concrete plan with the audio entry
set to the string value `none`. -/
theorem audio_none_string_witness :
    Step.logInstallingAudio "none" ∈ performInstallation argsAudioNone hwBase ∧
    Step.installPipewire ∉ performInstallation argsAudioNone hwBase ∧
    Step.installPulseaudio ∉ performInstallation argsAudioNone hwBase ∧
    Step.logNoAudio ∉ performInstallation argsAudioNone hwBase :=
  (audio_none_string_takes_chosen_branch argsAudioNone hwBase).2 rfl

end ArchInstall
